import Mathlib

/-!
Verification of the JapaneseChatAI client against its specification.

The definitions below are a shallow embedding of the program's core logic:
the data model of `src/types.ts`, the transcript assembler of
`src/components/VoiceInput.tsx` (the `recognition.onresult` handler), and
the session store, bookmark store, playback controller and conversation
orchestrator of `src/App.tsx`.  JavaScript `Date.now()` readings are passed
in as explicit `Nat` parameters (one parameter per distinct read in the
source), `Promise` results of the external tutor collaborator are modelled
as an `Except` value, and React state updates are modelled as explicit
state passing in source order.
-/

namespace JapaneseChatAI

/-! ## Data model (src/types.ts) -/

/-- `Sender` enum of `src/types.ts`. -/
inductive Sender where
  | USER
  | AI
deriving DecidableEq, Repr

/-- `FeedbackData` of `src/types.ts`; the `score` field is the 0-100
naturalness score. -/
structure FeedbackData where
  original : String
  corrected : String
  explanation : String
  score : Int
deriving DecidableEq, Repr

/-- `Message` of `src/types.ts`.  Timestamps are `Date.now()` readings in
milliseconds. -/
structure Message where
  id : String
  sender : Sender
  text : String
  timestamp : Nat
  feedback : Option FeedbackData := none
  translation : Option String := none
deriving DecidableEq, Repr

/-- The nested `feedback` object of `TutorResponse` in `src/types.ts`. -/
structure TutorFeedback where
  correctedSentence : String
  explanation : String
  naturalnessScore : Int
deriving DecidableEq, Repr

/-- `TutorResponse` of `src/types.ts`: the structured result of the external
tutor collaborator. -/
structure TutorResponse where
  reply : String
  replyTranslation : String
  feedback : TutorFeedback
deriving DecidableEq, Repr

/-- `ChatSession` of `src/types.ts`. -/
structure ChatSession where
  id : String
  title : String
  createdAt : Nat
  messages : List Message
deriving DecidableEq, Repr

/-- `SavedSentence` of `src/types.ts` (the `note` field is never written by
the handlers under verification and is omitted). -/
structure SavedSentence where
  id : String
  original : String
  translation : Option String
  source : String
  timestamp : Nat
deriving DecidableEq, Repr

/-! ## Transcript assembler (src/components/VoiceInput.tsx, onresult) -/

/-- The segment-joining loop of `recognition.onresult`
(`src/components/VoiceInput.tsx` lines 30-39): iterate over all recognition
results with index `i`, inserting a single space before every segment with
`i > 0`. -/
def joinSegmentsFrom : Nat → List String → String
  | _, [] => ""
  | i, s :: rest => (if i > 0 then " " else "") ++ s ++ joinSegmentsFrom (i + 1) rest

/-- `newVoiceTranscript` built by the loop starting at index 0. -/
def joinSegments (segs : List String) : String :=
  joinSegmentsFrom 0 segs

/-- Embeds `base.endsWith(c)` for a single character `c` (both space
characters checked by the source are single characters, so the check is
exactly a last-character comparison). -/
def endsWithChar (base : String) (c : Char) : Bool :=
  match base.data.getLast? with
  | some l => l == c
  | none => false

/-- `needsSpace` of `recognition.onresult` (`src/components/VoiceInput.tsx`
line 44): `prefix.length > 0 && !prefix.endsWith(' ') && !prefix.endsWith('　')`. -/
def needsSeparator (base : String) : Bool :=
  decide (0 < base.length) && !(endsWithChar base ' ') && !(endsWithChar base '　')

/-- The assembled input text set by `recognition.onresult`
(`src/components/VoiceInput.tsx` line 46):
`prefix + (needsSpace ? ' ' : '') + newVoiceTranscript`. -/
def assemble (base : String) (segs : List String) : String :=
  base ++ (if needsSeparator base then " " else "") ++ joinSegments segs

/-- Spec-side description of "segments joined with single-space separators
in arrival order", written from the specification's words for comparison
with the loop of the source. -/
def specJoin : List String → String
  | [] => ""
  | [s] => s
  | s :: r :: t => s ++ " " ++ specJoin (r :: t)

/-! ## Playback controller (src/App.tsx, stopAudio / handlePlayAudio)

The controller's observable state is the pair of `currentlyPlayingId` and
the audio-source slot `sourceNodeRef`.  Calls issued to the underlying
audio source are recorded as an event trace; the source slot is tagged with
the message id it was started for so that a `stopSource` event names the
playback it halts. -/

/-- A call issued on the underlying audio machinery: `source.stop()` on the
source started for a message id, or `source.start()` for a message id. -/
inductive AudioEvent where
  | stopSource (id : String)
  | startSource (id : String)
deriving DecidableEq, Repr

/-- The playback controller state: `currentlyPlayingId` (React state) and
the `sourceNodeRef` slot, tagged with the id of the message it plays. -/
structure PlaybackState where
  currentlyPlayingId : Option String
  sourceNode : Option String
deriving DecidableEq, Repr

/-- The Idle controller state: nothing playing, no audio source. -/
def PlaybackState.idle : PlaybackState :=
  { currentlyPlayingId := none, sourceNode := none }

/-- `stopAudio` (`src/App.tsx` lines 156-166): if a source node is present,
call `stop()` on it and clear the slot; always clear `currentlyPlayingId`. -/
def stopAudio (s : PlaybackState) : PlaybackState × List AudioEvent :=
  match s.sourceNode with
  | some sid => (PlaybackState.idle, [AudioEvent.stopSource sid])
  | none => (PlaybackState.idle, [])

/-- `handlePlayAudio` (`src/App.tsx` lines 265-307).  `ttsOk` models whether
the awaited speech-synthesis request and decode succeed; on success the new
source is started and the slot filled, on failure `currentlyPlayingId` is
cleared. -/
def handlePlayAudio (text : String) (messageId : String) (ttsOk : Bool)
    (s : PlaybackState) : PlaybackState × List AudioEvent :=
  if s.currentlyPlayingId = some messageId then
    stopAudio s
  else
    let stopped := stopAudio s
    if ttsOk then
      ({ currentlyPlayingId := some messageId, sourceNode := some messageId },
        stopped.2 ++ [AudioEvent.startSource messageId])
    else
      ({ currentlyPlayingId := none, sourceNode := stopped.1.sourceNode }, stopped.2)

/-- Number of `stop()` calls issued on audio sources in a trace. -/
def countStops (es : List AudioEvent) : Nat :=
  es.countP fun e =>
    match e with
    | AudioEvent.stopSource _ => true
    | AudioEvent.startSource _ => false

/-! ## App state and handlers (src/App.tsx) -/

/-- The React state of `App` relevant to the stores: the session collection,
the bookmark collection, the active session id, the loading flag and the
playback controller state. -/
structure AppState where
  sessions : List ChatSession
  savedSentences : List SavedSentence
  currentSessionId : String
  isLoading : Bool
  playback : PlaybackState
deriving DecidableEq, Repr

/-- `createWelcomeMessage` (`src/App.tsx` lines 14-20); `now` is the clock
reading of `new Date()`. -/
def createWelcomeMessage (now : Nat) : Message :=
  { id := "welcome"
    sender := Sender.AI
    text := "こんにちは！日本語の練習をしましょう。何でも話しかけてください。"
    timestamp := now
    translation := some "你好！让我们来练习日语吧。你可以说任何你想说的话。" }

/-- `createNewSession` (`src/App.tsx` lines 22-27); `now` is the
`Date.now()` reading. -/
def createNewSession (now : Nat) : ChatSession :=
  { id := toString now
    title := "新对话"
    createdAt := now
    messages := [createWelcomeMessage now] }

/-- `initFirstSession` (`src/App.tsx` lines 46-50): replace the session
collection with one fresh session and make it active. -/
def initFirstSession (now : Nat) (st : AppState) : AppState :=
  { st with sessions := [createNewSession now]
            currentSessionId := (createNewSession now).id }

/-- `handleClearAllSessions` (`src/App.tsx` lines 135-138): discard the
persisted record and reinitialise to a single fresh session. -/
def handleClearAllSessions (now : Nat) (st : AppState) : AppState :=
  initFirstSession now st

/-- `handleNewChat` (`src/App.tsx` lines 129-133). -/
def handleNewChat (now : Nat) (st : AppState) : AppState :=
  { st with sessions := createNewSession now :: st.sessions
            currentSessionId := (createNewSession now).id }

/-- `setCurrentSessionId` as wired to `onSelectSession`
(`src/App.tsx` line 327). -/
def handleSelectSession (sid : String) (st : AppState) : AppState :=
  { st with currentSessionId := sid }

/-- The `newSaved` record of `handleSaveSentence` (`src/App.tsx`
lines 141-147). -/
def mkSavedSentence (now : Nat) (text : String) (translation : Option String)
    (source : String) : SavedSentence :=
  { id := toString now
    original := text
    translation := translation
    source := source
    timestamp := now }

/-- `handleSaveSentence` (`src/App.tsx` lines 140-150): prepend the new
record. -/
def handleSaveSentence (now : Nat) (text : String) (translation : Option String)
    (source : String) (st : AppState) : AppState :=
  { st with savedSentences := mkSavedSentence now text translation source :: st.savedSentences }

/-- `handleDeleteSentence` (`src/App.tsx` lines 152-154): remove by id. -/
def handleDeleteSentence (sid : String) (st : AppState) : AppState :=
  { st with savedSentences := st.savedSentences.filter fun s => s.id != sid }

/-! ## Conversation orchestrator (src/App.tsx, handleSendMessage) -/

/-- `text.slice(0, 10) + (text.length > 10 ? '...' : '')`
(`src/App.tsx` line 187). -/
def truncateTitle (text : String) : String :=
  String.mk (text.data.take 10) ++ (if text.length > 10 then "..." else "")

/-- The `newTitle` computation of the first session updater
(`src/App.tsx` lines 185-188). -/
def deriveTitle (session : ChatSession) (text : String) : String :=
  if session.title = "新对话" ∧ session.messages.length ≤ 1 then truncateTitle text
  else session.title

/-- The `userMessage` record (`src/App.tsx` lines 174-179); `t0` is the
`Date.now()` reading that also provides `newMessageId`. -/
def mkUserMessage (t0 : Nat) (text : String) : Message :=
  { id := toString t0, sender := Sender.USER, text := text, timestamp := t0 }

/-- The first session updater of `handleSendMessage`
(`src/App.tsx` lines 183-197): append the user message to the active
session and derive its title. -/
def appendUserToSession (cid : String) (u : Message) (text : String)
    (session : ChatSession) : ChatSession :=
  if session.id = cid then
    { session with title := deriveTitle session text
                   messages := session.messages ++ [u] }
  else session

/-- One entry of the role-tagged history list sent to the tutor
collaborator (`src/App.tsx` lines 202-205). -/
structure ApiTurn where
  role : String
  text : String
deriving DecidableEq, Repr

/-- The role mapping of `src/App.tsx` line 203. -/
def toApiTurn (m : Message) : ApiTurn :=
  { role := if m.sender = Sender.USER then "user" else "model", text := m.text }

/-- JavaScript `array.slice(-n)` for `n ≥ 1`: the last `min(n, length)`
elements. -/
def sliceLast (n : Nat) (l : List α) : List α :=
  l.drop (l.length - n)

/-- The bounded history construction of `handleSendMessage`
(`src/App.tsx` lines 200-205): filter out the welcome message from the
pre-send message list, append the new user message, keep the last 12, drop
the final element (the new message itself) and role-tag the rest. -/
def buildApiHistory (oldMessages : List Message) (userMessage : Message) : List ApiTurn :=
  ((sliceLast 12 ((oldMessages.filter fun m => m.id != "welcome") ++ [userMessage])).dropLast).map
    toApiTurn

/-- The feedback attachment of the success updater
(`src/App.tsx` lines 211-223). -/
def attachFeedbackTo (newMessageId : String) (text : String) (r : TutorResponse)
    (m : Message) : Message :=
  let fb : FeedbackData :=
    { original := text
      corrected := r.feedback.correctedSentence
      explanation := r.feedback.explanation
      score := r.feedback.naturalnessScore }
  if m.id = newMessageId then
    { m with feedback := some fb }
  else m

/-- The `aiMessage` record of the success updater
(`src/App.tsx` lines 225-232); `t1` is the `Date.now()` reading inside the
updater. -/
def mkAiMessage (t1 : Nat) (r : TutorResponse) : Message :=
  { id := toString (t1 + 1)
    sender := Sender.AI
    text := r.reply
    timestamp := t1
    translation := some r.replyTranslation }

/-- The success updater of `handleSendMessage`
(`src/App.tsx` lines 209-240). -/
def applySuccessToSession (cid newMessageId : String) (text : String)
    (r : TutorResponse) (t1 : Nat) (session : ChatSession) : ChatSession :=
  if session.id = cid then
    { session with messages :=
        (session.messages.map (attachFeedbackTo newMessageId text r)) ++ [mkAiMessage t1 r] }
  else session

/-- The fallback apology text of the catch branch (`src/App.tsx` line 250). -/
def fallbackText : String :=
  "申し訳ありません。エラーが発生しました。(抱歉，发生了错误。)"

/-- The `errorMessage` record of the catch branch
(`src/App.tsx` lines 247-252); `t1` is the `Date.now()` reading there. -/
def mkErrorMessage (t1 : Nat) : Message :=
  { id := toString t1, sender := Sender.AI, text := fallbackText, timestamp := t1 }

/-- The catch-branch session updater (`src/App.tsx` lines 254-259). -/
def applyErrorToSession (cid : String) (t1 : Nat) (session : ChatSession) : ChatSession :=
  if session.id = cid then
    { session with messages := session.messages ++ [mkErrorMessage t1] }
  else session

/-- Result of one `handleSendMessage` cycle: the final app state, the
argument pair of the tutor-collaborator invocation (`none` when the guard
returned early), the `(text, messageId)` calls made to `handlePlayAudio`,
and the trace of calls on audio sources. -/
structure SendResult where
  state : AppState
  tutorCall : Option (List ApiTurn × String)
  playCalls : List (String × String)
  audioEvents : List AudioEvent
deriving DecidableEq, Repr

/-- `handleSendMessage` (`src/App.tsx` lines 168-263).  The clock readings
are explicit: `t0` at line 173 (user-message id and timestamp), `t1` inside
the second session updater (line 225) or in the catch branch (line 248),
and `t2` at line 242 where the playback id is recomputed.  `tutorResult`
models the settled promise of `sendMessageToTutor`; `ttsOk` models the
speech-synthesis outcome inside `handlePlayAudio`. -/
def handleSendMessage (t0 t1 t2 : Nat) (text : String)
    (tutorResult : Except Unit TutorResponse) (ttsOk : Bool) (st : AppState) : SendResult :=
  if st.currentSessionId = "" then
    { state := st, tutorCall := none, playCalls := [], audioEvents := [] }
  else
    let stopped := stopAudio st.playback
    let userMessage := mkUserMessage t0 text
    let sessions1 := st.sessions.map (appendUserToSession st.currentSessionId userMessage text)
    let oldMessages :=
      match st.sessions.find? (fun s => s.id == st.currentSessionId) with
      | some s => s.messages
      | none => []
    let api := buildApiHistory oldMessages userMessage
    match tutorResult with
    | Except.ok r =>
      let sessions2 :=
        sessions1.map (applySuccessToSession st.currentSessionId (toString t0) text r t1)
      let aiMsgId := toString (t2 + 1)
      let played := handlePlayAudio r.reply aiMsgId ttsOk stopped.1
      { state := { st with sessions := sessions2, isLoading := false, playback := played.1 }
        tutorCall := some (api, text)
        playCalls := [(r.reply, aiMsgId)]
        audioEvents := stopped.2 ++ played.2 }
    | Except.error _ =>
      let sessions2 := sessions1.map (applyErrorToSession st.currentSessionId t1)
      { state := { st with sessions := sessions2, isLoading := false, playback := stopped.1 }
        tutorCall := some (api, text)
        playCalls := []
        audioEvents := stopped.2 }

/-! ## Concrete states used by witnesses and counterexamples -/

/-- A fresh one-session app state (session created at clock 500). -/
def demoSession : ChatSession := createNewSession 500

/-- App state holding exactly `demoSession`, active, idle playback. -/
def demoState : AppState :=
  { sessions := [demoSession]
    savedSentences := []
    currentSessionId := demoSession.id
    isLoading := false
    playback := PlaybackState.idle }

/-- The tutor response of the specification's success scenario. -/
def demoResponse : TutorResponse :=
  { reply := "こんにちは！"
    replyTranslation := "你好！"
    feedback :=
      { correctedSentence := "こんにちは"
        explanation := "完美"
        naturalnessScore := 100 } }

/-- A pre-existing bookmark record (id "1"). -/
def demoSentence : SavedSentence :=
  { id := "1", original := "はい", translation := some "好", source := "AI回复", timestamp := 1 }

/-- App state with one pre-existing bookmark (id "1"). -/
def demoSavedState : AppState :=
  { demoState with savedSentences := [demoSentence] }

/-- Twenty prior exchanged messages (ids "1" … "20", none of them the
welcome message), alternating user/AI. -/
def demoPrior : List Message :=
  (List.range 20).map fun i =>
    { id := toString (i + 1)
      sender := if i % 2 = 0 then Sender.USER else Sender.AI
      text := toString (i + 1)
      timestamp := i + 1 }

/-- The new user utterance used with `demoPrior`. -/
def demoUser : Message := mkUserMessage 1000 "x"

/-- The feedback the success scenario attaches to the user message. -/
def expectedFeedback : FeedbackData :=
  { original := "こんにちは", corrected := "こんにちは", explanation := "完美", score := 100 }

/-- The user message of the success scenario after feedback attachment. -/
def expectedUserMessage : Message :=
  { id := "1000", sender := Sender.USER, text := "こんにちは", timestamp := 1000,
    feedback := some expectedFeedback }

/-- The AI message appended by the success scenario (id computed from the
updater clock 1000). -/
def expectedAiMessage : Message :=
  { id := "1001", sender := Sender.AI, text := "こんにちは！", timestamp := 1000,
    translation := some "你好！" }

/-! ### Helper lemmas about the assembler -/

theorem length_pos_iff_ne_empty (s : String) : 0 < s.length ↔ s ≠ "" := by
  cases s with
  | mk data =>
    show 0 < data.length ↔ _
    rw [List.length_pos]
    constructor
    · intro h hmk
      exact h (congrArg String.data hmk)
    · intro h hd
      exact h (congrArg String.mk hd)

theorem joinSegmentsFrom_succ (t : List String) :
    ∀ i, joinSegmentsFrom (i + 1) t =
      match t with
      | [] => ""
      | u :: v => " " ++ specJoin (u :: v) := by
  induction t with
  | nil => intro i; rfl
  | cons u v ih =>
    intro i
    show (if i + 1 > 0 then " " else "") ++ u ++ joinSegmentsFrom (i + 2) v = _
    rw [if_pos (Nat.succ_pos i)]
    rw [ih (i + 1)]
    cases v with
    | nil =>
      show (" " ++ u) ++ "" = " " ++ specJoin [u]
      rw [String.append_empty]
      rfl
    | cons w x =>
      show (" " ++ u) ++ (" " ++ specJoin (w :: x)) = " " ++ specJoin (u :: w :: x)
      show (" " ++ u) ++ (" " ++ specJoin (w :: x)) = " " ++ (u ++ " " ++ specJoin (w :: x))
      rw [String.append_assoc, String.append_assoc]

theorem joinSegments_eq_specJoin (l : List String) : joinSegments l = specJoin l := by
  cases l with
  | nil => rfl
  | cons s t =>
    show (if (0 : Nat) > 0 then " " else "") ++ s ++ joinSegmentsFrom 1 t = specJoin (s :: t)
    rw [if_neg (by omega)]
    rw [String.empty_append]
    rw [joinSegmentsFrom_succ t 0]
    cases t with
    | nil => exact String.append_empty s
    | cons u v =>
      show s ++ (" " ++ specJoin (u :: v)) = (s ++ " ") ++ specJoin (u :: v)
      rw [String.append_assoc]

theorem needsSeparator_iff (base : String) :
    needsSeparator base = true ↔
      base ≠ "" ∧ ¬(endsWithChar base ' ' = true ∨ endsWithChar base '　' = true) := by
  simp only [needsSeparator, Bool.and_eq_true, Bool.not_eq_true', decide_eq_true_eq,
    not_or, Bool.not_eq_true, length_pos_iff_ne_empty, and_assoc]

theorem assemble_eq (B : String) (S : List String) :
    assemble B S =
      B ++ (if B ≠ "" ∧ ¬(endsWithChar B ' ' = true ∨ endsWithChar B '　' = true) then " "
            else "") ++ specJoin S := by
  show (B ++ (if needsSeparator B then " " else "")) ++ joinSegments S = _
  rw [joinSegments_eq_specJoin]
  rw [if_congr (needsSeparator_iff B) rfl rfl]

/-!
## Settling the claims
-/

/-- C4: for every base text `B` and segment sequence `S`, the assembled
string starts with `B` verbatim and equals `B`, then a single separator
space exactly when `B` is non-empty and does not end in a space-class
character, then the segments of `S` joined in arrival order with
single-space separators. -/
theorem assemble_spec (B : String) (S : List String) :
    (∃ rest, assemble B S = B ++ rest) ∧
    assemble B S =
      B ++ (if B ≠ "" ∧ ¬(endsWithChar B ' ' = true ∨ endsWithChar B '　' = true) then " "
            else "") ++ specJoin S := by
  refine ⟨⟨(if needsSeparator B then " " else "") ++ joinSegments S, ?_⟩, assemble_eq B S⟩
  show (B ++ (if needsSeparator B then " " else "")) ++ joinSegments S = _
  rw [String.append_assoc]

/-- C3 (amended): assembling with an empty segment sequence yields the base
text followed by one separator space when the base text is non-empty and
does not end in a space-class character, and the base text unchanged
otherwise. -/
theorem assemble_nil_amended (B : String) :
    assemble B [] =
      if B ≠ "" ∧ ¬(endsWithChar B ' ' = true ∨ endsWithChar B '　' = true) then B ++ " "
      else B := by
  rw [assemble_eq B []]
  show (B ++ _) ++ "" = _
  rw [String.append_empty]
  by_cases hc : B ≠ "" ∧ ¬(endsWithChar B ' ' = true ∨ endsWithChar B '　' = true)
  · rw [if_pos hc, if_pos hc]
  · rw [if_neg hc, if_neg hc, String.append_empty]

/-- C3 (counterexample): on the non-empty base text `"a"` (which does not
end in a space-class character) and zero segments, the assembler appends a
trailing separator space, so the base text is not returned unchanged. -/
theorem assemble_nil_ne : assemble "a" [] ≠ "a" := by decide

/-- C5: calling `play(text, m)` twice in a row from the Idle state (the
first call starting playback successfully) returns the playback controller
to Idle, and across the two calls exactly one `stop()` is issued on an
audio source. -/
theorem playback_toggle_twice (text m : String) :
    (handlePlayAudio text m true (handlePlayAudio text m true PlaybackState.idle).1).1 =
      PlaybackState.idle ∧
    countStops ((handlePlayAudio text m true PlaybackState.idle).2 ++
      (handlePlayAudio text m true (handlePlayAudio text m true PlaybackState.idle).1).2) = 1 := by
  have h1 : handlePlayAudio text m true PlaybackState.idle =
      ({ currentlyPlayingId := some m, sourceNode := some m }, [AudioEvent.startSource m]) := by
    simp [handlePlayAudio, stopAudio, PlaybackState.idle]
  have h2 : handlePlayAudio text m true { currentlyPlayingId := some m, sourceNode := some m } =
      (PlaybackState.idle, [AudioEvent.stopSource m]) := by
    simp [handlePlayAudio, stopAudio, PlaybackState.idle]
  rw [h1, h2]
  exact ⟨rfl, rfl⟩

/-- C6: starting playback for message id `X` while the controller is
`Playing(Y)` with an active source for `Y` and `X ≠ Y` issues the stop for
`Y` before the start for `X`, and ends with `X` as the only active
source. -/
theorem playback_supersede (text X Y : String) (h : X ≠ Y) :
    handlePlayAudio text X true { currentlyPlayingId := some Y, sourceNode := some Y } =
      ({ currentlyPlayingId := some X, sourceNode := some X },
        [AudioEvent.stopSource Y, AudioEvent.startSource X]) := by
  have hne : ({ currentlyPlayingId := some Y, sourceNode := some Y } :
      PlaybackState).currentlyPlayingId ≠ some X := by
    simp [Ne.symm h]
  rw [handlePlayAudio, if_neg hne]
  rfl

/-- C6 (witness): the supersession law at `X = "a"`, `Y = "b"`. -/
theorem playback_supersede_witness :
    ("a" : String) ≠ "b" ∧
    handlePlayAudio "t" "a" true { currentlyPlayingId := some "b", sourceNode := some "b" } =
      ({ currentlyPlayingId := some "a", sourceNode := some "a" },
        [AudioEvent.stopSource "b", AudioEvent.startSource "a"]) :=
  ⟨by decide, playback_supersede "t" "a" "b" (by decide)⟩

/-- C7: `clearAll` leaves exactly one session, that session's message list
is exactly the synthetic welcome message, and that session is the active
one. -/
theorem clearAll_resets (now : Nat) (st : AppState) :
    (handleClearAllSessions now st).sessions = [createNewSession now] ∧
    (createNewSession now).messages = [createWelcomeMessage now] ∧
    (handleClearAllSessions now st).currentSessionId = (createNewSession now).id :=
  ⟨rfl, rfl, rfl⟩

/-- C8: no session-store operation (clear-all, new-chat, select-session, or
a full send-message cycle with either tutor outcome) deletes or modifies
any record of the bookmark collection. -/
theorem sessionOps_preserve_savedSentences (st : AppState) (now : Nat) (sid : String)
    (t0 t1 t2 : Nat) (text : String) (res : Except Unit TutorResponse) (ttsOk : Bool) :
    (handleClearAllSessions now st).savedSentences = st.savedSentences ∧
    (handleNewChat now st).savedSentences = st.savedSentences ∧
    (handleSelectSession sid st).savedSentences = st.savedSentences ∧
    (handleSendMessage t0 t1 t2 text res ttsOk st).state.savedSentences = st.savedSentences := by
  refine ⟨rfl, rfl, rfl, ?_⟩
  rw [handleSendMessage]
  split
  · rfl
  · cases res <;> rfl

/-- C9: saving a sentence whose freshly generated id does not occur in the
bookmark collection and then deleting that id returns the whole app state,
and in particular the bookmark collection, to its pre-save contents. -/
theorem saveThenDelete_roundtrip (st : AppState) (now : Nat) (text : String)
    (tr : Option String) (src : String)
    (h : ∀ s ∈ st.savedSentences, s.id ≠ toString now) :
    handleDeleteSentence (toString now) (handleSaveSentence now text tr src st) = st := by
  have hfilter :
      (mkSavedSentence now text tr src :: st.savedSentences).filter
        (fun s => s.id != toString now) = st.savedSentences := by
    rw [List.filter_cons_of_neg (by simp [mkSavedSentence])]
    exact List.filter_eq_self.mpr (fun s hs => by simpa using h s hs)
  rw [handleSaveSentence, handleDeleteSentence]
  show ({ st with savedSentences := _ } : AppState) = st
  rw [hfilter]

/-- C9 (witness): the round trip on a collection holding one bookmark with
id "1", saving at clock 2. -/
theorem saveThenDelete_roundtrip_witness :
    (∀ s ∈ demoSavedState.savedSentences, s.id ≠ toString 2) ∧
    handleDeleteSentence (toString 2)
      (handleSaveSentence 2 "また" (some "再见") "AI回复" demoSavedState) = demoSavedState :=
  ⟨by decide, saveThenDelete_roundtrip demoSavedState 2 "また" (some "再见") "AI回复" (by decide)⟩

/-- C1 (amended): with 20 prior exchanged messages (welcome excluded) and a
new user utterance, the tutor collaborator is invoked with exactly the most
recent 11 of the prior messages in chronological order, excluding the
welcome message: the source keeps the last 12 entries of the prior messages
plus the new utterance and then drops the new utterance. -/
theorem buildApiHistory_bounded (prior : List Message) (u : Message) (t : Nat)
    (h20 : prior.length = 20) (hw : ∀ m ∈ prior, m.id ≠ "welcome") :
    buildApiHistory (createWelcomeMessage t :: prior) u = (prior.drop 9).map toApiTurn := by
  rw [buildApiHistory]
  rw [List.filter_cons_of_neg (by simp [createWelcomeMessage])]
  rw [List.filter_eq_self.mpr (fun m hm => by simpa using hw m hm)]
  rw [sliceLast]
  have hlen : (prior ++ [u]).length - 12 = 9 := by simp [h20]
  rw [hlen]
  rw [List.drop_append_of_le_length (by omega)]
  rw [List.dropLast_concat]

/-- C1 (counterexample): on a session holding the welcome message and 20
prior exchanged messages, the history actually sent to the tutor
collaborator is not the most recent 12 prior messages (it is the most
recent 11). -/
theorem buildApiHistory_not_twelve :
    buildApiHistory (createWelcomeMessage 0 :: demoPrior) demoUser ≠
      (demoPrior.drop 8).map toApiTurn := by decide

/-- C1 (witness): the amended bound evaluated on 20 concrete prior
messages. -/
theorem buildApiHistory_bounded_witness :
    demoPrior.length = 20 ∧ (∀ m ∈ demoPrior, m.id ≠ "welcome") ∧
    buildApiHistory (createWelcomeMessage 0 :: demoPrior) demoUser =
      (demoPrior.drop 9).map toApiTurn :=
  ⟨by decide, by decide, buildApiHistory_bounded demoPrior demoUser 0 (by decide) (by decide)⟩

/-- C10: when the tutor collaborator call rejects and an active session id
is set, every session matching the active id gains exactly the optimistic
user message (with no feedback attached) followed by exactly one fallback
AI message carrying the apology text, other sessions are untouched, no
playback is attempted, and the loading flag ends false. -/
theorem sendMessage_failure_spec (st : AppState) (t0 t1 t2 : Nat) (text : String)
    (ttsOk : Bool) (h : ¬ st.currentSessionId = "") :
    (handleSendMessage t0 t1 t2 text (Except.error ()) ttsOk st).state.isLoading = false ∧
    (handleSendMessage t0 t1 t2 text (Except.error ()) ttsOk st).playCalls = [] ∧
    (mkUserMessage t0 text).feedback = none ∧
    (mkErrorMessage t1).sender = Sender.AI ∧
    (mkErrorMessage t1).text = fallbackText ∧
    (handleSendMessage t0 t1 t2 text (Except.error ()) ttsOk st).state.sessions =
      st.sessions.map (fun s =>
        if s.id = st.currentSessionId then
          { s with title := deriveTitle s text
                   messages := s.messages ++ [mkUserMessage t0 text, mkErrorMessage t1] }
        else s) := by
  rw [handleSendMessage, if_neg h]
  refine ⟨rfl, rfl, rfl, rfl, rfl, ?_⟩
  show (st.sessions.map
      (appendUserToSession st.currentSessionId (mkUserMessage t0 text) text)).map
      (applyErrorToSession st.currentSessionId t1) = _
  rw [List.map_map]
  refine List.map_congr_left ?_
  intro s _
  by_cases hs : s.id = st.currentSessionId
  · simp [Function.comp, appendUserToSession, applyErrorToSession, hs, List.append_assoc]
  · simp [Function.comp, appendUserToSession, applyErrorToSession, hs]

/-- C10 (witness): the failure path evaluated on the one-session demo
state. -/
theorem sendMessage_failure_witness :
    ¬ (demoState.currentSessionId = "") ∧
    ((handleSendMessage 1000 1001 1002 "hi" (Except.error ()) true demoState).state.isLoading
        = false ∧
      (handleSendMessage 1000 1001 1002 "hi" (Except.error ()) true demoState).playCalls = [] ∧
      (mkUserMessage 1000 "hi").feedback = none ∧
      (mkErrorMessage 1001).sender = Sender.AI ∧
      (mkErrorMessage 1001).text = fallbackText ∧
      (handleSendMessage 1000 1001 1002 "hi" (Except.error ()) true demoState).state.sessions =
        demoState.sessions.map (fun s =>
          if s.id = demoState.currentSessionId then
            { s with title := deriveTitle s "hi"
                     messages := s.messages ++ [mkUserMessage 1000 "hi", mkErrorMessage 1001] }
          else s)) :=
  ⟨by decide, sendMessage_failure_spec demoState 1000 1001 1002 "hi" true (by decide)⟩

/-- C2 (code evaluated at the failing input): in the success scenario on a
fresh session the resulting session holds exactly the welcome message, the
user message with the returned feedback attached, and the AI message with
the returned reply and translation (id "1001" from the updater clock 1000);
but when the clock has advanced to 1005 by the time line 242 of
`src/App.tsx` recomputes the playback id, playback is triggered with id
"1006", which is not the appended AI message's id. -/
theorem sendMessage_playback_id_mismatch :
    (handleSendMessage 1000 1000 1005 "こんにちは" (Except.ok demoResponse) true
        demoState).state.sessions.map (fun s => s.messages) =
      [[createWelcomeMessage 500, expectedUserMessage, expectedAiMessage]] ∧
    (handleSendMessage 1000 1000 1005 "こんにちは" (Except.ok demoResponse) true
        demoState).playCalls = [("こんにちは！", "1006")] ∧
    expectedAiMessage.id = "1001" ∧
    ("1006" : String) ≠ "1001" :=
  ⟨by decide, by decide, by decide, by decide⟩

end JapaneseChatAI
